import Mathlib

/-!
Shallow embedding of the python-flysystem storage adapters
(`src/flysystem/adapters/drive.py`, `src/flysystem/adapters/hgface.py`)
and proofs about them.

Conventions of the embedding:
* Python strings are Lean `String`s; byte blobs are `List Nat`.
* Local and remote filesystem paths are lists of path components
  (`os.path.join a b` becomes list append of a singleton).
* A Python call that may raise is a Lean function into `Except PyExc α`;
  the constructors of `PyExc` separate raw language/library exceptions
  from the repository's own adapter errors.
* External services (the Google Drive API, the OAuth flow, the console)
  are passed in as explicit data: a remote folder is an inductive tree,
  the console line typed at a prompt is a `String` argument, and the
  outcome of each network call is a field of an environment record.
-/

namespace Flysystem

/-! ## Python string primitives used by the adapters -/

/-- Leading-match test on character lists: `subAt p l` is true when `p`
is an initial segment of `l`. Helper for the embeddings of Python's
`str.startswith` and the `in` substring operator. -/
def subAt : List Char → List Char → Bool
  | [], _ => true
  | _ :: _, [] => false
  | a :: as, b :: bs => a == b && subAt as bs

/-- Substring occurrence test on character lists: `hasSub p l` is true
when `p` occurs contiguously somewhere in `l`. -/
def hasSub (p : List Char) : List Char → Bool
  | [] => p.isEmpty
  | b :: bs => subAt p (b :: bs) || hasSub p bs

/-- Embeds Python's `s.startswith(p)`: character-wise test that `p` is a
leading segment of `s`. -/
def startswith (s p : String) : Bool :=
  subAt p.toList s.toList

/-- Embeds Python's `p in s` on strings: contiguous substring test. -/
def inStr (p s : String) : Bool :=
  hasSub p.toList s.toList

/-- Digit-string value: `some n` when the character list is a nonempty
sequence of decimal digits, `none` otherwise. -/
def digitsToNat : List Char → Option Nat
  | [] => none
  | cs =>
    if cs.all Char.isDigit then
      some (cs.foldl (fun a c => a * 10 + (c.toNat - 48)) 0)
    else
      none

/-- Whitespace as `int()` strips it. -/
def isPySpace (c : Char) : Bool :=
  c == ' ' || c == '\t' || c == '\n' || c == '\r'

/-- Strip leading and trailing whitespace from a character list. -/
def stripWS (cs : List Char) : List Char :=
  ((cs.dropWhile isPySpace).reverse.dropWhile isPySpace).reverse

/-- Embeds Python's `int(s)` on a string argument: surrounding whitespace
is stripped, an optional single leading sign is accepted, and the rest
must be a nonempty run of decimal digits; any other shape raises
`ValueError` (here: `none`). -/
def pyInt (s : String) : Option Int :=
  match stripWS s.toList with
  | '+' :: cs => (digitsToNat cs).map Int.ofNat
  | '-' :: cs => (digitsToNat cs).map fun n => -(Int.ofNat n)
  | cs => (digitsToNat cs).map Int.ofNat

/-- Path components joined with "/", embedding the `str` value of an
`os.path.join`-built path as used in error locations. -/
def joinPath (p : List String) : String :=
  String.intercalate "/" p

/-! ## Error model

The repository's error module (`src/flysystem/error.py`) is imported by
the adapters but is not among the provided sources; its classes are
modelled from the spec here. -/

/-- Modelled from the spec: the error taxonomy of §7. The adapter error
classes imported by the adapters (`UnableToCreateDirectory`,
`UnableToUpload`, `UnableToDownload`, `UnableToFindDriveToken`,
`UnableToReadCredentialFile`) are kinds of one `AdapterError` shape
`{kind, location, message}`. The spec's taxonomy additionally names an
`UnsupportedOperation` kind; no adapter source constructs it, but the
kind is included so that statements can refer to it. -/
inductive ErrKind
  | unableToCreateDirectory
  | unableToUpload
  | unableToDownload
  | unableToFindDriveToken
  | unableToReadCredentialFile
  | unsupportedOperation
  deriving DecidableEq, Repr

/-- Modelled from the spec: an adapter-level error value
`{kind, location, message}` (§3, "AdapterError"). -/
structure AdapterError where
  kind : ErrKind
  location : String
  message : String
  deriving DecidableEq, Repr

/-- Modelled from the spec: the `with_location` constructor used as
`UnableToX.with_location(location, message)` throughout the adapters. -/
def with_location (kind : ErrKind) (location message : String) : AdapterError :=
  ⟨kind, location, message⟩

/-- An exception escaping an adapter method: either one of the
repository's adapter errors, or a raw Python/library exception that the
method did not convert. -/
inductive PyExc
  | adapter (e : AdapterError)
  | notImplementedError
  | valueError (message : String)
  | typeError (message : String)
  | eofError (message : String)
  | refreshError (message : String)
  deriving DecidableEq, Repr

/-- Whether an exception is one of the repository's adapter errors (as
opposed to a raw language/library exception). -/
def PyExc.isAdapter : PyExc → Bool
  | .adapter _ => true
  | _ => false

/-- Whether an exception is the spec taxonomy's `UnsupportedOperation`
adapter error. -/
def PyExc.isUnsupportedOperation : PyExc → Bool
  | .adapter e => e.kind == ErrKind.unsupportedOperation
  | _ => false

/-- Embeds Python's `str(e)` on the exceptions the adapters re-wrap:
the message text carried by the exception. -/
def PyExc.pyStr : PyExc → String
  | .adapter e => e.message
  | .notImplementedError => ""
  | .valueError m => m
  | .typeError m => m
  | .eofError m => m
  | .refreshError m => m

/-! ## Unsupported operations (drive.py:245-424, hgface.py:22-211)

Each of these adapter methods has the body `raise NotImplementedError`;
the embedding returns that raw exception. The result type parameter is
the method's declared Python return type, never produced. -/

namespace DriveFilesystemAdapter

/-- Embeds `DriveFilesystemAdapter.file_exists` (drive.py:245-253):
body is `raise NotImplementedError`. -/
def file_exists (_path : String) : Except PyExc Bool :=
  .error .notImplementedError

/-- Embeds `DriveFilesystemAdapter.read` (drive.py:289-297):
body is `raise NotImplementedError`. -/
def read (_path : String) : Except PyExc String :=
  .error .notImplementedError

/-- Embeds `DriveFilesystemAdapter.write` (drive.py:265-275):
body is `raise NotImplementedError`. -/
def write (_path _contents : String) : Except PyExc Unit :=
  .error .notImplementedError

/-- Embeds `DriveFilesystemAdapter.copy` (drive.py:390-400):
body is `raise NotImplementedError`. -/
def copy (_source _destination : String) : Except PyExc Unit :=
  .error .notImplementedError

/-- Embeds `DriveFilesystemAdapter.move` (drive.py:402-412):
body is `raise NotImplementedError`. -/
def move (_source _destination : String) : Except PyExc Unit :=
  .error .notImplementedError

/-- Embeds `DriveFilesystemAdapter.temporary_url` (drive.py:414-423):
body is `raise NotImplementedError`. -/
def temporary_url (_path : String) : Except PyExc String :=
  .error .notImplementedError

end DriveFilesystemAdapter

namespace HuggingFaceFilesystemAdapter

/-- Embeds `HuggingFaceFilesystemAdapter.file_exists` (hgface.py:22-30):
body is `raise NotImplementedError`. -/
def file_exists (_path : String) : Except PyExc Bool :=
  .error .notImplementedError

/-- Embeds `HuggingFaceFilesystemAdapter.read` (hgface.py:66-74):
body is `raise NotImplementedError`. -/
def read (_path : String) : Except PyExc String :=
  .error .notImplementedError

/-- Embeds `HuggingFaceFilesystemAdapter.write` (hgface.py:42-52):
body is `raise NotImplementedError`. -/
def write (_path _contents : String) : Except PyExc Unit :=
  .error .notImplementedError

/-- Embeds `HuggingFaceFilesystemAdapter.copy` (hgface.py:178-188):
body is `raise NotImplementedError`. -/
def copy (_source _destination : String) : Except PyExc Unit :=
  .error .notImplementedError

/-- Embeds `HuggingFaceFilesystemAdapter.move` (hgface.py:190-200):
body is `raise NotImplementedError`. -/
def move (_source _destination : String) : Except PyExc Unit :=
  .error .notImplementedError

/-- Embeds `HuggingFaceFilesystemAdapter.temporary_url` (hgface.py:202-211):
body is `raise NotImplementedError`. -/
def temporary_url (_path : String) : Except PyExc String :=
  .error .notImplementedError

end HuggingFaceFilesystemAdapter

/-! ## Resource resolver (drive.py:141-179)

`get_resource_by_name` issues one `files().list` query, then resolves
the returned match list, prompting the console when several items
match. The embedding takes the query's outcome and the console line the
user would type at the prompt as explicit arguments. -/

/-- An owner entry of a Drive file listing (`owners(displayName,
emailAddress)`). -/
structure Owner where
  displayName : String
  emailAddress : String
  deriving DecidableEq, Repr

/-- A file/folder resource as returned by the Drive `files().list` query
of `get_resource_by_name` (fields `id, name, mimeType, createdTime,
size, owners`). `size` is optional: the listing omits it for folders
(`file.get("size", "Unknown")` in the display code). -/
structure DriveFile where
  id : String
  name : String
  mimeType : String
  createdTime : String
  size : Option String
  owners : List Owner
  deriving DecidableEq, Repr

/-- Outcome of the `files().list` network call wrapped by the `try`
block at drive.py:142-156: a match list, or one of the exception classes
the block catches (`TransportError`, `HttpError`, any other
`Exception`), each carrying the text used for the re-wrapped message. -/
inductive QueryOutcome
  | ok (files : List DriveFile)
  | transportError (message : String)
  | httpError (reason : String)
  | otherError (message : String)
  deriving DecidableEq, Repr

deriving instance DecidableEq for Except

/-- Result of a resolver run: whether the multi-match console prompt was
displayed, and the returned resource or escaping exception. -/
structure ResolveOutcome where
  prompted : Bool
  result : Except PyExc DriveFile
  deriving DecidableEq, Repr

/-- Embeds `DriveFilesystemAdapter.get_resource_by_name`
(drive.py:141-179). `query` is the outcome of the `files().list` call
(the only code covered by the `try`/`except` block), `userInput` the
console line read by `input` at the multi-match prompt. The prompt and
the `int` parse sit after the `except` clauses, so a non-integer line
raises the raw `ValueError` of `int()`. -/
def get_resource_by_name (resource_name : String) (query : QueryOutcome)
    (userInput : String) : ResolveOutcome :=
  match query with
  | .transportError m =>
    ⟨false, .error (.adapter (with_location .unableToDownload resource_name m))⟩
  | .httpError r =>
    ⟨false, .error (.adapter (with_location .unableToDownload resource_name r))⟩
  | .otherError m =>
    ⟨false, .error (.adapter (with_location .unableToDownload resource_name m))⟩
  | .ok files =>
    if files.isEmpty then
      ⟨false, .error (.adapter (with_location .unableToDownload resource_name "Resource not found"))⟩
    else if h1 : files.length = 1 then
      ⟨false, .ok (files.get ⟨0, by omega⟩)⟩
    else
      match pyInt userInput with
      | none =>
        ⟨true, .error (.valueError
          ("invalid literal for int() with base 10: " ++ userInput))⟩
      | some choice =>
        if h : 1 ≤ choice ∧ choice ≤ (files.length : Int) then
          ⟨true, .ok (files.get ⟨(choice - 1).toNat, by omega⟩)⟩
        else
          ⟨true, .error (.adapter (with_location .unableToDownload resource_name "Invalid choice"))⟩

/-! ## Credential manager (drive.py:34-64)

`DriveFilesystemAdapter.__init__` loads a pickled credential from the
token cache file, refreshes or reauthorizes as needed, saves the token
after either, and builds the API service. The embedding makes the
environment explicit: the state of the token cache file, the outcome of
`creds.refresh(Request())`, whether the client-secrets file parses as
JSON, and the credential the interactive flow would return. -/

/-- A loaded OAuth credential as the constructor inspects it:
`valid`, `expired`, presence of `refresh_token`, and an opaque token
string identifying the credential material. -/
structure Credential where
  valid : Bool
  expired : Bool
  refresh_token : Bool
  token : String
  deriving DecidableEq, Repr

/-- State of the token cache file at `token_path`, as seen through the
outcome of the load step: missing (`os.path.exists` false); present
with `pickle.load` raising `UnpicklingError` — the one deserialization
exception the constructor catches (drive.py:42); present with
`pickle.load` raising some other exception — an empty or truncated
file raises `EOFError`, and the pickle documentation also lists
`AttributeError`, `ImportError` and `IndexError` as unpickling
failures, none of them caught by drive.py:40-43; or present and
holding a credential. -/
inductive TokenFileState
  | absent
  | corrupt
  | corruptOther (exc : PyExc)
  | stored (c : Credential)
  deriving DecidableEq, Repr

/-- Environment of one `DriveFilesystemAdapter.__init__` run: its two
path arguments, the token cache state, the outcome of the refresh
network call (`ok` gives the refreshed credential, `error` the raised
exception's message), whether `creds_path` parses as JSON, and the
credential `flow.run_local_server` would produce. -/
structure InitEnv where
  creds_path : String
  token_path : String
  tokenFile : TokenFileState
  refreshOutcome : Except String Credential
  credsFileJsonOk : Bool
  flowCredential : Credential
  deriving DecidableEq, Repr

/-- Result of a successful construction: the credential the adapter
ends up holding, and whether the token cache file was (re)written. -/
structure InitResult where
  creds : Credential
  tokenSaved : Bool
  deriving DecidableEq, Repr

/-- Embeds the interactive-authorization branch of the constructor
(drive.py:51-57): `InstalledAppFlow.from_client_secrets_file` raises
`JSONDecodeError` on a malformed descriptor, mapped to
`UnableToReadCredentialFile`; otherwise `flow.run_local_server(port=0)`
returns the new credential, which is then pickled to the cache. -/
def run_flow (env : InitEnv) : Except PyExc InitResult :=
  if env.credsFileJsonOk then
    .ok ⟨env.flowCredential, true⟩
  else
    .error (.adapter (with_location .unableToReadCredentialFile env.creds_path
      "The input credential file is not JSON formatted."))

/-- Embeds `DriveFilesystemAdapter.__init__` (drive.py:34-64). The load
step runs only when `token_path` is truthy and the file exists; the
`try` around `pickle.load` catches only `UnpicklingError`, mapped to
`UnableToFindDriveToken` — any other deserialization exception (such
as `EOFError` on a truncated cache) escapes raw. When the loaded
credential is missing or invalid: if it exists, is expired and has a
refresh token, `creds.refresh(Request())` is called with no surrounding
`try` — a refresh failure escapes as the raw exception; otherwise the
interactive flow runs. After either, the token is saved. -/
def drive_init (env : InitEnv) : Except PyExc InitResult :=
  let loaded : Except PyExc (Option Credential) :=
    if env.token_path = "" then .ok none
    else
      match env.tokenFile with
      | .absent => .ok none
      | .corrupt =>
        .error (.adapter (with_location .unableToFindDriveToken env.token_path
          "Can't pickle the token."))
      | .corruptOther exc => .error exc
      | .stored c => .ok (some c)
  match loaded with
  | .error e => .error e
  | .ok none => run_flow env
  | .ok (some c) =>
    if !c.valid then
      if c.expired && c.refresh_token then
        match env.refreshOutcome with
        | .error m => .error (.refreshError m)
        | .ok c2 => .ok ⟨c2, true⟩
      else
        run_flow env
    else
      .ok ⟨c, false⟩

/-! ## Recursive download (drive.py:181-243)

The remote side is a tree: a folder's `files().list(q='<id> in
parents')` call returns its children, each a file (with its media
bytes) or a folder. The local side records which directories were
created and which files were written, with what bytes. -/

/-- A remote Drive entry: a file with its media byte content, or a
folder with the children its listing returns, in listing order. -/
inductive RTree
  | file (name : String) (content : List Nat)
  | folder (name : String) (children : List RTree)

/-- The local filesystem as the download code observes and mutates it:
directories created and files written (path components, bytes). -/
structure LocalFS where
  dirs : List (List String)
  files : List (List String × List Nat)
  deriving DecidableEq, Repr

/-- Record a single directory if not already present (the `exist_ok`
part of `os.makedirs`). -/
def mkdirOne (fs : LocalFS) (p : List String) : LocalFS :=
  if p ∈ fs.dirs then fs else { fs with dirs := fs.dirs ++ [p] }

/-- Embeds `os.makedirs(p, exist_ok=True)`: every missing ancestor of
`p` is created as well, outermost first. -/
def makedirs (p : List String) (fs : LocalFS) : LocalFS :=
  (p.inits.filter fun q => !q.isEmpty).foldl mkdirOne fs

/-- Embeds `DriveFilesystemAdapter.download_file` (drive.py:181-209):
the `MediaIoBaseDownload` chunk loop runs until `done`, leaving the
complete media bytes in `fh`; then `os.makedirs(download_path,
exist_ok=True)` and the bytes are written to
`download_path/file_name` (mode `"wb"`, overwriting). The transfer
itself succeeds; network failures are not needed for the claims. -/
def download_file (file_name : String) (content : List Nat)
    (download_path : List String) (fs : LocalFS) : LocalFS :=
  let fs1 := makedirs download_path fs
  { fs1 with files :=
      fs1.files.filter (fun e => e.1 ≠ download_path ++ [file_name])
        ++ [(download_path ++ [file_name], content)] }

/-- Embeds the `for item in tqdm(items)` loop of
`DriveFilesystemAdapter.download_folder` (drive.py:236-242), with the
recursive `download_folder(item["id"], item["name"], new_folder_path)`
call inlined: that call first joins its `folder_name` onto its
`download_path` argument (drive.py:221), so the items of a child folder
land under `dp/name/name`. `download_folder_unfold` below checks the
inlining against the wrapper. -/
def downloadItems : List RTree → List String → LocalFS → LocalFS
  | [], _, fs => fs
  | RTree.file name content :: rest, dp, fs =>
    downloadItems rest dp (download_file name content dp fs)
  | RTree.folder name cs :: rest, dp, fs =>
    let nfp := dp ++ [name]
    let fs1 := makedirs nfp fs
    let fs2 := downloadItems cs (nfp ++ [name]) (makedirs (nfp ++ [name]) fs1)
    downloadItems rest dp fs2

/-- Embeds `DriveFilesystemAdapter.download_folder` (drive.py:211-243)
applied to a folder whose listing returns `children`:
`download_path = os.path.join(download_path, folder_name)`,
`os.makedirs(download_path, exist_ok=True)`, then the item loop. -/
def download_folder (children : List RTree) (folder_name : String)
    (download_path : List String) (fs : LocalFS) : LocalFS :=
  let dp := download_path ++ [folder_name]
  downloadItems children dp (makedirs dp fs)

/-- Sanity check of the inlining in `downloadItems`: the folder case is
exactly the code's recursive call
`download_folder(item["id"], item["name"], new_folder_path)`. -/
theorem download_folder_unfold (name : String) (cs rest : List RTree)
    (dp : List String) (fs : LocalFS) :
    downloadItems (RTree.folder name cs :: rest) dp fs =
      downloadItems rest dp
        (download_folder cs name (dp ++ [name]) (makedirs (dp ++ [name]) fs)) := by
  simp [downloadItems, download_folder]

/-! ## Recursive upload (drive.py:66-139)

The remote side records the resources created by `files().create`,
each with its generated id, name, parent list, and kind. -/

/-- A resource created on the Drive side: generated id, name, the
`parents` list of its create request, and whether it is a folder. -/
structure DriveResource where
  id : String
  name : String
  parents : List String
  isFolder : Bool
  deriving DecidableEq, Repr

/-- The Drive service state across create calls: a counter generating
fresh ids and the list of created resources in creation order. -/
structure DriveState where
  nextId : Nat
  resources : List DriveResource
  deriving DecidableEq, Repr

/-- Fresh backend-assigned id for the n-th create call. -/
def genId (n : Nat) : String :=
  "id" ++ toString n

/-- The Python value passed as the `options` parameter of
`create_directory`. The signature declares a `Dict`, but
`upload_folder` passes its `parent_id` argument (a string or `None`)
positionally in that slot, so all three shapes occur. -/
inductive PyVal
  | none
  | str (s : String)
  | dict (entries : List (String × String))
  deriving DecidableEq, Repr

/-- Append a newly created resource, returning its id and the new
state (the `files().create(...).execute()` + `folder.get("id")` step). -/
def createResource (name : String) (parents : List String) (isFolder : Bool)
    (st : DriveState) : String × DriveState :=
  let fid := genId st.nextId
  (fid, ⟨st.nextId + 1, st.resources ++ [⟨fid, name, parents, isFolder⟩]⟩)

/-- Embeds `DriveFilesystemAdapter.create_directory` (drive.py:66-85).
The metadata gets a `parents` entry only when `"parent_id" in options`
holds; on a dict that is a key lookup, on a string it is Python's
substring test, and on `None` the `in` operator itself raises
`TypeError`. When the substring test succeeds on a string,
`options["parent_id"]` raises `TypeError` (string indices must be
integers). These `TypeError`s occur outside the method's `try` block
(drive.py:79-84) and escape raw. -/
def create_directory (path : String) (options : PyVal) (st : DriveState) :
    Except PyExc (String × DriveState) :=
  match options with
  | .none => .error (.typeError "argument of type 'NoneType' is not iterable")
  | .str s =>
    if inStr "parent_id" s then
      .error (.typeError "string indices must be integers")
    else
      .ok (createResource path [] true st)
  | .dict entries =>
    match entries.lookup "parent_id" with
    | some v => .ok (createResource path [v] true st)
    | Option.none => .ok (createResource path [] true st)

/-- Embeds `DriveFilesystemAdapter.upload_file` (drive.py:87-113):
`file_name = os.path.basename(file_path)`; the metadata gets
`parents = [parent_id]` only when `parent_id` is truthy (non-`None`,
nonempty). The resumable `MediaFileUpload` transfer succeeds; local and
network failures are not needed for the claims. -/
def upload_file (file_path : List String) (parent_id : Option String)
    (st : DriveState) : String × DriveState :=
  let file_name := file_path.getLastD ""
  let parents :=
    match parent_id with
    | some p => if p = "" then [] else [p]
    | Option.none => []
  createResource file_name parents false st

/-- A local directory entry as `os.listdir` + `os.path.isfile` /
`os.path.isdir` classify it. -/
inductive LTree
  | file (name : String)
  | dir (name : String) (children : List LTree)

/-- Embeds the `for item in tqdm(os.listdir(folder_path))` loop of
`DriveFilesystemAdapter.upload_folder` (drive.py:134-139), with the
recursive `upload_folder(item_path, folder_id)` call inlined (its
`create_directory(folder_name, parent_id)` step passes the parent id
string in the `options` slot). `upload_folder_unfold` below checks the
inlining against the wrapper. -/
def uploadItems : List String → List LTree → String → DriveState →
    Except PyExc DriveState
  | _, [], _, st => .ok st
  | fp, LTree.file name :: rest, folder_id, st =>
    let r := upload_file (fp ++ [name]) (some folder_id) st
    uploadItems fp rest folder_id r.2
  | fp, LTree.dir name cs :: rest, folder_id, st =>
    match create_directory name (PyVal.str folder_id) st with
    | .error e =>
      .error (.adapter (with_location .unableToUpload (joinPath (fp ++ [name])) e.pyStr))
    | .ok (fid2, st1) =>
      match uploadItems (fp ++ [name]) cs fid2 st1 with
      | .error e => .error e
      | .ok st2 => uploadItems fp rest folder_id st2

/-- Embeds `DriveFilesystemAdapter.upload_folder` (drive.py:115-139):
`folder_name = os.path.basename(folder_path)`, then
`folder_id = self.create_directory(folder_name, parent_id)` — the
parent id (a string or `None`) is passed positionally as the `options`
dict. Any exception from that call is caught by the surrounding
`except` clauses and re-raised as `UnableToUpload.with_location(
folder_path, str(e))`; then the item loop runs with the created
folder's id as parent. -/
def upload_folder (folder_path : List String) (children : List LTree)
    (parent_id : Option String) (st : DriveState) : Except PyExc DriveState :=
  let folder_name := folder_path.getLastD ""
  let opts := match parent_id with
    | some s => PyVal.str s
    | Option.none => PyVal.none
  match create_directory folder_name opts st with
  | .error e =>
    .error (.adapter (with_location .unableToUpload (joinPath folder_path) e.pyStr))
  | .ok (folder_id, st1) => uploadItems folder_path children folder_id st1

/-- Sanity check of the inlining in `uploadItems`: the directory case
is exactly the code's recursive call
`upload_folder(item_path, folder_id)`. -/
theorem upload_folder_unfold (fp : List String) (name : String)
    (cs : List LTree) (rest : List LTree) (folder_id : String)
    (st : DriveState) :
    uploadItems fp (LTree.dir name cs :: rest) folder_id st =
      match upload_folder (fp ++ [name]) cs (some folder_id) st with
      | .error e => .error e
      | .ok st2 => uploadItems fp rest folder_id st2 := by
  simp only [uploadItems, upload_folder, List.getLastD_concat]
  cases create_directory name (PyVal.str folder_id) st with
  | error e => rfl
  | ok p => rfl

/-! ## HuggingFace selective download (hgface.py:213-246) -/

/-- Embeds the selection test of the selective-download branch of
`HuggingFaceFilesystemAdapter.download` (hgface.py:227-229): with a
non-empty `resource`, the repo file list is scanned and a file is
transferred exactly when `file_path.startswith(resource)` holds. This
definition collects the selected paths in listing order. -/
def hf_selected_files (resource : String) (repo_files : List String) :
    List String :=
  repo_files.filter fun fp => startswith fp resource

/-- Follows the spec's words for C10's comparison: a repo path is "at
or strictly under" a resource path when it equals the resource or
extends it with a `/`-separated component. -/
def atOrUnder (resource fp : String) : Bool :=
  fp == resource || startswith fp (resource ++ "/")

/-! ## Claim theorems -/

/-- C1: the claim states that `download_folder` reproduces the exact
remote nesting locally, one local directory level per remote level with
no extra nesting. The code does not: the recursive call receives the
already-joined child path and joins the folder name again
(drive.py:221, 238-240). At the failing input — a root folder `root`
holding one subfolder `sub` holding one file `a.txt` — the subfolder's
file lands at `dest/root/sub/sub/a.txt` (two local levels named `sub`)
instead of `dest/root/sub/a.txt`. Byte content is preserved. -/
theorem C1_download_folder_double_nesting :
    download_folder [RTree.folder "sub" [RTree.file "a.txt" [104, 105]]] "root" ["dest"] ⟨[], []⟩ =
      ⟨[["dest"], ["dest", "root"], ["dest", "root", "sub"], ["dest", "root", "sub", "sub"]],
       [(["dest", "root", "sub", "sub", "a.txt"], [104, 105])]⟩ := by
  simp [download_folder, downloadItems, download_file, makedirs, mkdirOne, List.inits]

/-- C2: the claim states that `upload_folder` creates a remote folder
parented under the supplied `parent_id` and parents every created
resource under the folder for its containing directory. The code
passes `parent_id` positionally as `create_directory`'s `options` dict
(drive.py:126), so `"parent_id" in options` becomes Python's substring
test on the id string: at the failing input the created folders `data`
and `sub` get an empty `parents` list (files are parented, but under a
floating folder), and with no parent supplied the `in` operator raises
`TypeError` on `None`, re-wrapped as `UnableToUpload` — the upload
fails outright. -/
theorem C2_upload_folder_unparented :
    (upload_folder ["data"] [LTree.dir "sub" [LTree.file "b.txt"], LTree.file "a.jpg"]
        (some "p123") ⟨0, []⟩ =
      .ok ⟨4, [⟨"id0", "data", [], true⟩, ⟨"id1", "sub", [], true⟩,
               ⟨"id2", "b.txt", ["id1"], false⟩, ⟨"id3", "a.jpg", ["id0"], false⟩]⟩) ∧
    upload_folder ["data", "photos"] [LTree.file "a.jpg"] Option.none ⟨0, []⟩ =
      .error (.adapter ⟨.unableToUpload, "data/photos",
        "argument of type 'NoneType' is not iterable"⟩) := by
  constructor
  · simp only [upload_folder, uploadItems, upload_file, create_directory, createResource,
      genId, inStr, hasSub, subAt]
    decide
  · decide

/-- C3 counterexample: the claim states that an unsupported operation
fails with the `UnsupportedOperation` adapter error, never a
language-native exception. At the explicit input `file_exists
"report.txt"` both adapters raise the language-native
`NotImplementedError`, which is not an adapter error at all. -/
theorem C3_counterexample :
    DriveFilesystemAdapter.file_exists "report.txt" = .error .notImplementedError ∧
    HuggingFaceFilesystemAdapter.file_exists "report.txt" = .error .notImplementedError ∧
    PyExc.isUnsupportedOperation .notImplementedError = false ∧
    PyExc.isAdapter .notImplementedError = false := by
  exact ⟨rfl, rfl, rfl, rfl⟩

/-- C3 amended: every adapter-contract operation the Drive and
HuggingFace backends cannot support (`file_exists`, `read`, `write`,
`copy`, `move`, `temporary_url`) fails with the language-native
`NotImplementedError`; no `UnsupportedOperation` adapter error is
raised, as the code constructs no such kind. -/
theorem C3_amended_not_implemented (path contents source destination : String) :
    DriveFilesystemAdapter.file_exists path = .error .notImplementedError ∧
    DriveFilesystemAdapter.read path = .error .notImplementedError ∧
    DriveFilesystemAdapter.write path contents = .error .notImplementedError ∧
    DriveFilesystemAdapter.copy source destination = .error .notImplementedError ∧
    DriveFilesystemAdapter.move source destination = .error .notImplementedError ∧
    DriveFilesystemAdapter.temporary_url path = .error .notImplementedError ∧
    HuggingFaceFilesystemAdapter.file_exists path = .error .notImplementedError ∧
    HuggingFaceFilesystemAdapter.read path = .error .notImplementedError ∧
    HuggingFaceFilesystemAdapter.write path contents = .error .notImplementedError ∧
    HuggingFaceFilesystemAdapter.copy source destination = .error .notImplementedError ∧
    HuggingFaceFilesystemAdapter.move source destination = .error .notImplementedError ∧
    HuggingFaceFilesystemAdapter.temporary_url path = .error .notImplementedError :=
  ⟨rfl, rfl, rfl, rfl, rfl, rfl, rfl, rfl, rfl, rfl, rfl, rfl⟩

/-- C4 counterexample: the claim states that every existing token
cache whose contents cannot be deserialized makes construction fail
with the `UnableToFindToken` error. The `try` at drive.py:40-43
catches only `UnpicklingError`: at this explicit environment — a
truncated cache, a canonical corruption, on which `pickle.load` raises
`EOFError` ("Ran out of input") — construction aborts with the raw
`EOFError`, which is no adapter error at all. -/
theorem C4_counterexample :
    drive_init ⟨"creds.json", "/tmp/drive_token.pickle",
        .corruptOther (.eofError "Ran out of input"), .error "e", true,
        ⟨true, false, false, "flow"⟩⟩ =
      .error (.eofError "Ran out of input") ∧
    PyExc.isAdapter (.eofError "Ran out of input") = false := by
  exact ⟨rfl, rfl⟩

/-- C4 amended: a token cache whose deserialization raises
`UnpicklingError` makes construction fail with the
`UnableToFindDriveToken` error (the spec's `UnableToFindToken`)
carrying the token path — no partial adapter is returned; a cache
whose deserialization raises any other exception (e.g. `EOFError` on a
truncated file) aborts construction with that raw exception escaping
unconverted. -/
theorem C4_amended_unpickling_only :
    (∀ (env : InitEnv), env.token_path ≠ "" → env.tokenFile = .corrupt →
      drive_init env = .error (.adapter
        ⟨.unableToFindDriveToken, env.token_path, "Can't pickle the token."⟩)) ∧
    (∀ (env : InitEnv) (exc : PyExc), env.token_path ≠ "" →
      env.tokenFile = .corruptOther exc →
      drive_init env = .error exc) := by
  constructor
  · intro env hp hc
    simp [drive_init, hp, hc, with_location]
  · intro env exc hp hc
    simp [drive_init, hp, hc]

/-- C4 amended witness: both branches of the amended theorem applied
at concrete environments — an `UnpicklingError` cache and a truncated
(`EOFError`) cache. -/
theorem C4_witness :
    drive_init ⟨"creds.json", "/tmp/drive_token.pickle", .corrupt, .error "e", true,
        ⟨true, false, false, "flow"⟩⟩ =
      .error (.adapter ⟨.unableToFindDriveToken, "/tmp/drive_token.pickle",
        "Can't pickle the token."⟩) ∧
    drive_init ⟨"creds.json", "/tmp/drive_token.pickle",
        .corruptOther (.eofError "Ran out of input"), .error "e", true,
        ⟨true, false, false, "flow"⟩⟩ =
      .error (.eofError "Ran out of input") :=
  ⟨C4_amended_unpickling_only.1 _ (by decide) rfl,
   C4_amended_unpickling_only.2 _ _ (by decide) rfl⟩

/-- C5 counterexample: the claim states that a failed refresh of an
expired credential with a refresh token falls back to the interactive
flow. At this explicit environment — stored credential invalid,
expired, with refresh token; refresh raising "network unreachable";
a perfectly usable flow (`run_flow` would succeed) — construction
aborts with the raw refresh exception and the flow credential is never
returned. -/
theorem C5_counterexample :
    drive_init ⟨"creds.json", "/tmp/tok.pickle", .stored ⟨false, true, true, "old"⟩,
        .error "network unreachable", true, ⟨true, false, false, "flow"⟩⟩ =
      .error (.refreshError "network unreachable") ∧
    run_flow ⟨"creds.json", "/tmp/tok.pickle", .stored ⟨false, true, true, "old"⟩,
        .error "network unreachable", true, ⟨true, false, false, "flow"⟩⟩ =
      .ok ⟨⟨true, false, false, "flow"⟩, true⟩ := by
  exact ⟨rfl, rfl⟩

/-- C5 amended: whenever the loaded credential is invalid, expired and
has a refresh token, and the refresh call fails, the refresh exception
propagates out of `__init__` unhandled — construction aborts; the
interactive flow is not run. -/
theorem C5_amended_refresh_failure_aborts (env : InitEnv) (c : Credential) (m : String)
    (hp : env.token_path ≠ "") (hf : env.tokenFile = .stored c)
    (hv : c.valid = false) (he : c.expired = true) (hr : c.refresh_token = true)
    (ho : env.refreshOutcome = .error m) :
    drive_init env = .error (.refreshError m) := by
  simp [drive_init, hp, hf, hv, he, hr, ho]

/-- C5 amended witness: the refresh-failure theorem applied at a
concrete environment. -/
theorem C5_witness :
    drive_init ⟨"creds.json", "/tmp/tok.pickle", .stored ⟨false, true, true, "old"⟩,
        .error "network unreachable", true, ⟨true, false, false, "flow"⟩⟩ =
      .error (.refreshError "network unreachable") :=
  C5_amended_refresh_failure_aborts _ ⟨false, true, true, "old"⟩ _
    (by decide) rfl rfl rfl rfl rfl

/-- Reduction of `get_resource_by_name` in the multi-match case when
the console line does not parse as an integer: with at least two
matches, the zero-match and single-match branches are skipped and the
raw `ValueError` of `int()` escapes. -/
lemma get_resource_multi_none (resource_name userInput : String)
    (files : List DriveFile) (h2 : 2 ≤ files.length)
    (hin : pyInt userInput = none) :
    get_resource_by_name resource_name (.ok files) userInput =
      ⟨true, .error (.valueError
        ("invalid literal for int() with base 10: " ++ userInput))⟩ := by
  have hne : files.isEmpty = false := by
    cases files with
    | nil => simp at h2
    | cons a l => rfl
  have hl1 : files.length ≠ 1 := by omega
  simp [get_resource_by_name, hne, hl1, hin]

/-- Reduction of `get_resource_by_name` in the multi-match case when
the console line parses as the integer `choice`: the run is decided by
the range check `1 <= choice <= len(files)`. -/
lemma get_resource_multi_some (resource_name userInput : String)
    (files : List DriveFile) (h2 : 2 ≤ files.length) (choice : Int)
    (hin : pyInt userInput = some choice) :
    get_resource_by_name resource_name (.ok files) userInput =
      (if h : 1 ≤ choice ∧ choice ≤ (files.length : Int) then
        ⟨true, .ok (files.get ⟨(choice - 1).toNat, by omega⟩)⟩
      else
        ⟨true, .error (.adapter
          (with_location .unableToDownload resource_name "Invalid choice"))⟩) := by
  have hne : files.isEmpty = false := by
    cases files with
    | nil => simp at h2
    | cons a l => rfl
  have hl1 : files.length ≠ 1 := by omega
  simp [get_resource_by_name, hne, hl1, hin]

/-- C6: with exactly one non-deleted match the resolver returns that
item directly with no console prompt; with several matches, a parsed
choice `k` within `[1, N]` returns the k-th item of the
backend-returned list (1-based), after prompting. -/
theorem C6_resolver_selection :
    (∀ (resource_name userInput : String) (f : DriveFile),
      get_resource_by_name resource_name (.ok [f]) userInput = ⟨false, .ok f⟩) ∧
    (∀ (resource_name userInput : String) (files : List DriveFile) (k : Nat)
      (f : DriveFile), 2 ≤ files.length → pyInt userInput = some (k : Int) →
      1 ≤ k → files[k - 1]? = some f →
      get_resource_by_name resource_name (.ok files) userInput = ⟨true, .ok f⟩) := by
  constructor
  · intro resource_name userInput f
    rfl
  · intro resource_name userInput files k f h2 hin hk hf
    have hlt : k - 1 < files.length := by
      by_contra hcon
      rw [List.getElem?_eq_none (by omega)] at hf
      exact absurd hf (by simp)
    have hcond : 1 ≤ (k : Int) ∧ (k : Int) ≤ (files.length : Int) := by
      constructor <;> omega
    rw [get_resource_multi_some resource_name userInput files h2 (k : Int) hin,
      dif_pos hcond]
    have hidx : ((k : Int) - 1).toNat = k - 1 := by omega
    have hget : files.get ⟨((k : Int) - 1).toNat, by omega⟩ = f := by
      rw [List.get_eq_getElem]
      rw [← hidx] at hf
      rw [List.getElem?_eq_getElem (by omega)] at hf
      exact Option.some.inj hf
    rw [hget]

/-- C6 witness: the selection theorem applied at concrete inputs: one
match named "report" is returned without a prompt; among two matches,
typing "2" returns the second listed item. -/
theorem C6_witness :
    get_resource_by_name "report" (.ok [⟨"idA", "report",
        "application/vnd.google-apps.folder", "2023-01-01T00:00:00Z", Option.none,
        [⟨"Alice", "alice@example.com"⟩]⟩]) "" =
      ⟨false, .ok ⟨"idA", "report", "application/vnd.google-apps.folder",
        "2023-01-01T00:00:00Z", Option.none, [⟨"Alice", "alice@example.com"⟩]⟩⟩ ∧
    get_resource_by_name "report" (.ok [⟨"idA", "report",
        "application/vnd.google-apps.folder", "2023-01-01T00:00:00Z", Option.none,
        [⟨"Alice", "alice@example.com"⟩]⟩,
      ⟨"idB", "report", "text/plain", "2024-02-02T00:00:00Z", some "1024",
        [⟨"Bob", "bob@example.com"⟩]⟩]) "2" =
      ⟨true, .ok ⟨"idB", "report", "text/plain", "2024-02-02T00:00:00Z", some "1024",
        [⟨"Bob", "bob@example.com"⟩]⟩⟩ :=
  ⟨C6_resolver_selection.1 "report" "" _,
   C6_resolver_selection.2 "report" "2" _ 2 _ (by decide) (by decide) (by decide) (by decide)⟩

/-- C7: with several matches, an entered 1-based index outside `[1, N]`
makes the resolver fail with the "Invalid choice" download error (the
spec's `InvalidChoice`), carrying the queried name as location. -/
theorem C7_invalid_choice (resource_name userInput : String)
    (files : List DriveFile) (k : Int) (h2 : 2 ≤ files.length)
    (hin : pyInt userInput = some k)
    (hout : k < 1 ∨ (files.length : Int) < k) :
    get_resource_by_name resource_name (.ok files) userInput =
      ⟨true, .error (.adapter
        ⟨.unableToDownload, resource_name, "Invalid choice"⟩)⟩ := by
  have hcond : ¬(1 ≤ k ∧ k ≤ (files.length : Int)) := by omega
  rw [get_resource_multi_some resource_name userInput files h2 k hin,
    dif_neg hcond]
  rfl

/-- C7 witness: typing "3" with two matches fails with the invalid
choice error. -/
theorem C7_witness :
    get_resource_by_name "report" (.ok [⟨"idA", "report",
        "application/vnd.google-apps.folder", "2023-01-01T00:00:00Z", Option.none,
        [⟨"Alice", "alice@example.com"⟩]⟩,
      ⟨"idB", "report", "text/plain", "2024-02-02T00:00:00Z", some "1024",
        [⟨"Bob", "bob@example.com"⟩]⟩]) "3" =
      ⟨true, .error (.adapter ⟨.unableToDownload, "report", "Invalid choice"⟩)⟩ :=
  C7_invalid_choice "report" "3" _ 3 (by decide) (by decide) (by decide)

/-- C8: a query returning zero non-deleted matches makes the resolver
fail with the "Resource not found" download error (the spec's
`NotFound`), carrying the supplied name as the location, and no prompt
is shown. -/
theorem C8_not_found (resource_name userInput : String) :
    get_resource_by_name resource_name (.ok []) userInput =
      ⟨false, .error (.adapter
        ⟨.unableToDownload, resource_name, "Resource not found"⟩)⟩ :=
  rfl

/-- C9: with several matches, a console line that does not parse as an
integer makes `int()` raise a raw `ValueError` which escapes the
adapter boundary unconverted: the prompt read sits outside the
method's `try` block, so the escaping exception is not an adapter
error of any kind. -/
theorem C9_raw_value_error (resource_name userInput : String)
    (files : List DriveFile) (h2 : 2 ≤ files.length)
    (hin : pyInt userInput = none) :
    get_resource_by_name resource_name (.ok files) userInput =
      ⟨true, .error (.valueError
        ("invalid literal for int() with base 10: " ++ userInput))⟩ ∧
    PyExc.isAdapter (.valueError
      ("invalid literal for int() with base 10: " ++ userInput)) = false := by
  exact ⟨get_resource_multi_none resource_name userInput files h2 hin, rfl⟩

/-- C9 witness: typing "two" with two matches raises the raw
`ValueError` of `int()`. -/
theorem C9_witness :
    get_resource_by_name "report" (.ok [⟨"idA", "report",
        "application/vnd.google-apps.folder", "2023-01-01T00:00:00Z", Option.none,
        [⟨"Alice", "alice@example.com"⟩]⟩,
      ⟨"idB", "report", "text/plain", "2024-02-02T00:00:00Z", some "1024",
        [⟨"Bob", "bob@example.com"⟩]⟩]) "two" =
      ⟨true, .error (.valueError "invalid literal for int() with base 10: two")⟩ ∧
    PyExc.isAdapter (.valueError "invalid literal for int() with base 10: two") = false :=
  C9_raw_value_error "report" "two" _ (by decide) (by decide)

/-- C10: in the HuggingFace selective download, a repo file is selected
for transfer exactly when its path starts with the `resource` string as
a character prefix; in particular for resource "data" the sibling file
"data2.txt" is selected although it is neither equal to "data" nor
under the "data/" directory. -/
theorem C10_prefix_selection :
    (∀ (resource : String) (repo_files : List String) (fp : String),
      fp ∈ hf_selected_files resource repo_files ↔
        fp ∈ repo_files ∧ startswith fp resource = true) ∧
    hf_selected_files "data" ["data/a.txt", "data2.txt", "docs/readme.md"] =
      ["data/a.txt", "data2.txt"] ∧
    atOrUnder "data" "data2.txt" = false := by
  refine ⟨?_, by decide, by decide⟩
  intro resource repo_files fp
  simp [hf_selected_files, List.mem_filter]

end Flysystem
